import Mathlib

/-!
Verification development for the `marineai` digest pipeline (`src/app.py`).

The pipeline is a single Flask handler `daily_digest` plus helper functions
`get_last_month_youtube_podcasts`, `download_audio`, `transcribe_audio` and
`summarize_text`.  External collaborators (YouTube search, yt-dlp download,
Whisper transcription, GPT generation) are modelled as oracle inputs: each
call site receives the collaborator's outcome for that call as a value of an
`Except`/sum type.  Machine-level effects are made explicit: the local
scratch file's byte size and whether it is still present after an item are
threaded as data.  All definitions below are transcribed from the Python
source; the only spec-side definition is the query-string form used for the
refinement claim about the query builder, clearly named `specQueryForm`.
-/

set_option autoImplicit false

namespace MarineAI

/-- `TOP_PLAYERS` constant from `app.py` line 38. -/
def TOP_PLAYERS : List String := ["Maersk", "CMA CGM", "Hapag-Lloyd", "MSC", "ONE"]

/-- A JSON value as it can appear under the `company`/`companies` keys of the
request body: a string, a list of strings, JSON null, or any other JSON value
(only its Python truthiness matters downstream, so it is modelled by that
boolean). -/
inductive PyVal where
  | pstr (s : String)
  | plist (l : List String)
  | pnone
  | pother (truthyFlag : Bool)
  deriving DecidableEq, Repr

/-- Python truthiness of a `PyVal`: empty string, empty list and `None` are
falsy, everything else according to its flag. -/
def PyVal.truthy : PyVal → Bool
  | .pstr s => s ≠ ""
  | .plist l => l ≠ []
  | .pnone => false
  | .pother b => b

/-- The parsed JSON request body: the three keys the handler reads
(`category`, `company`, `companies`; `none` = key absent) plus whether any
other key is present (needed only for the dict's Python truthiness in the
`if not data` check). -/
structure RequestBody where
  category : Option String
  company : Option PyVal
  companies : Option PyVal
  otherKeys : Bool
  deriving DecidableEq, Repr

/-- Python truthiness of the parsed body dict: truthy iff it has at least one
key (a key mapped to `null` still counts as a key). -/
def RequestBody.truthy (b : RequestBody) : Bool :=
  b.category.isSome || b.company.isSome || b.companies.isSome || b.otherKeys

/-- One raw item of the YouTube search response (`response["items"]`):
`item["id"].get("videoId")` (`none` = key absent) and the snippet fields. -/
structure RawItem where
  videoId : Option String
  title : String
  channelTitle : String
  publishedAt : String
  deriving DecidableEq, Repr

/-- A candidate item as assembled by `get_last_month_youtube_podcasts`
(lines 70-75 of `app.py`). -/
structure Podcast where
  title : String
  channel : String
  published_at : String
  video_url : String
  deriving DecidableEq, Repr

/-- The per-item output record appended to `summaries` (lines 267-274 and
283-290 of `app.py`).  `transcript_length` and `error` are optional because
each is present in exactly one of the two append sites. -/
structure DigestEntry where
  title : String
  channel : String
  published_at : String
  video_url : String
  summary : String
  transcript_length : Option Nat
  error : Option String
  deriving DecidableEq, Repr

/-- Shape of the Whisper response before normalization (line 144 of
`app.py`): a plain string, an object carrying a `text` field, or anything
else (kept as its `str(...)` rendering). -/
inductive TranscriptShape where
  | plain (s : String)
  | structured (text : String)
  | other (s : String)
  deriving DecidableEq, Repr

/-- `transcript if isinstance(transcript, str) else transcript.text if
hasattr(transcript, 'text') else str(transcript)` (line 144). -/
def normalizeTranscript : TranscriptShape → String
  | .plain s => s
  | .structured t => t
  | .other s => s

/-- `Except` result tagged as an error. -/
def isErr {ε α : Type} : Except ε α → Bool
  | .error _ => true
  | .ok _ => false

/-! ### get_last_month_youtube_podcasts (lines 42-82) -/

/-- `get_last_month_youtube_podcasts`: with no YouTube key, or when the
search collaborator raises, the result is `[]`; otherwise each raw item is
mapped to a `Podcast`, skipping items whose `videoId` is absent or falsy
(`if not video_id: continue`).  The search collaborator is an oracle
`String → Nat → Except String (List RawItem)` receiving the keywords and
`max_results`. -/
def get_last_month_youtube_podcasts (ytKey : Bool)
    (search : String → Nat → Except String (List RawItem))
    (search_keywords : String) (max_results : Nat) : List Podcast :=
  if ytKey = false then []
  else
    match search search_keywords max_results with
    | .error _ => []
    | .ok items =>
      items.filterMap fun it =>
        match it.videoId with
        | none => none
        | some vid =>
          if vid = "" then none
          else some { title := it.title, channel := it.channelTitle,
                      published_at := it.publishedAt,
                      video_url := "https://www.youtube.com/watch?v=" ++ vid }

/-! ### transcribe_audio (lines 120-159) -/

/-- One-decimal rendering of `bytes / 1024 / 1024` as used by the f-string
in the too-large error message, rounding the tenths half-to-even. -/
def formatMB1 (bytes : Nat) : String :=
  let n := bytes * 10
  let q := n / (1024 * 1024)
  let r := n % (1024 * 1024)
  let tenths := if 1024 * 1024 < 2 * r then q + 1
    else if 2 * r < 1024 * 1024 then q
    else if q % 2 = 0 then q else q + 1
  toString (tenths / 10) ++ "." ++ toString (tenths % 10)

/-- Error message of the size-gate upper bound (line 132). -/
def fileTooLargeMsg (size : Nat) : String :=
  "File too large: " ++ formatMB1 size ++ "MB (max 25MB)"

/-- `transcribe_audio`.  Inputs: whether `OPENAI_API_KEY` is set, the file
path produced by the download step, the scratch file's byte size (`none` =
the file does not exist), and the Whisper call's outcome.  Output: the
raised-or-returned result, paired with whether the scratch file is still
present afterwards.  The key/existence/size checks (lines 122-132) happen
before the `try`/`finally`, so a failure there leaves the file in place;
the `finally` (lines 152-159) removes the file whenever the `try` body was
entered, whether the Whisper call succeeded or raised. -/
def transcribe_audio (oKey : Bool) (file_path : String) (fileSize : Option Nat)
    (whisper : Except String TranscriptShape) : Except String String × Bool :=
  if oKey = false then (.error "OpenAI API key not available", fileSize.isSome)
  else
    match fileSize with
    | none => (.error ("Audio file not found: " ++ file_path), false)
    | some size =>
      if size < 1000 then (.error "Audio file too small - likely corrupted", true)
      else if 25 * 1024 * 1024 < size then (.error (fileTooLargeMsg size), true)
      else
        match whisper with
        | .error e => (.error e, false)
        | .ok shape => (.ok (normalizeTranscript shape), false)

/-! ### summarize_text (lines 161-209) -/

/-- Python `str.strip()`: drop whitespace from both ends. -/
def pyStrip (s : String) : String :=
  ⟨((s.data.dropWhile Char.isWhitespace).reverse.dropWhile Char.isWhitespace).reverse⟩

/-- Truncation applied before embedding the transcript in the prompt
(lines 170-172): texts over 12,000 characters are cut and suffixed with
an ellipsis. -/
def truncateForPrompt (text : String) : String :=
  if 12000 < text.length then (text.take 12000).push '.' |>.push '.' |>.push '.'
  else text

/-- `summarize_text`.  The generation collaborator is an oracle
`String → Except String String` receiving the (truncated) transcript that
the prompt embeds; its `.error` case models the GPT call raising, which the
function catches and converts to a message (line 209).  Result: the returned
summary string, paired with whether the generation collaborator was invoked.
Note that this function never raises: every failure becomes a returned
string. -/
def summarize_text (oKey : Bool) (text : String)
    (gen : String → Except String String) : String × Bool :=
  if oKey = false then ("OpenAI API key not available for summarization", false)
  else if text = "" ∨ (pyStrip text).length < 50 then
    ("Transcript too short to generate meaningful summary", false)
  else
    match gen (truncateForPrompt text) with
    | .error e => ("Summary generation failed: " ++ e, true)
    | .ok s =>
      if pyStrip s = "" then ("Summary could not be generated - empty response", true)
      else (s, true)

/-! ### The per-item loop of daily_digest (lines 246-290) -/

/-- The collaborator outcomes governing one item's processing attempt:
the download call's result (error message, or the audio file path), the
downloaded scratch file's byte size (`none` = missing), the Whisper call's
outcome, and the generation oracle. -/
structure ItemBehavior where
  download : Except String String
  fileSize : Option Nat
  whisper : Except String TranscriptShape
  gen : String → Except String String

/-- Result of one iteration of the per-item `try`/`except` block: the
appended `DigestEntry`, whether the `try` body completed (so
`processed_count` is incremented), and whether a scratch audio file is left
behind. -/
structure ItemResult where
  entry : DigestEntry
  success : Bool
  residualAudio : Bool
  deriving DecidableEq, Repr

/-- The `except` branch's entry (lines 283-290): the item's fields with the
error message as `error` and a `Processing failed:` summary; no
`transcript_length`. -/
def failEntry (p : Podcast) (e : String) : DigestEntry :=
  { title := p.title, channel := p.channel, published_at := p.published_at,
    video_url := p.video_url, summary := "Processing failed: " ++ e,
    transcript_length := none, error := some e }

/-- One iteration of the loop body (lines 257-290): download, transcribe,
summarize, and append either the success entry (with `transcript_length`,
without `error`) or the failure entry.  Only `download_audio` and
`transcribe_audio` can raise; `summarize_text` always returns a string. -/
def processItem (oKey : Bool) (p : Podcast) (b : ItemBehavior) : ItemResult :=
  match b.download with
  | .error e => { entry := failEntry p e, success := false, residualAudio := false }
  | .ok audio_path =>
    match transcribe_audio oKey audio_path b.fileSize b.whisper with
    | (.error e, present) =>
      { entry := failEntry p e, success := false, residualAudio := present }
    | (.ok transcription, present) =>
      let summary := (summarize_text oKey transcription b.gen).1
      { entry :=
          { title := p.title, channel := p.channel,
            published_at := p.published_at, video_url := p.video_url,
            summary := summary, transcript_length := some transcription.length,
            error := none },
        success := true, residualAudio := present }

/-- `max_videos_to_process` (line 248). -/
def max_videos_to_process : Nat := 3

/-- The `for` loop of `daily_digest` (lines 250-290): iterate over the
candidate/behavior pairs carrying `processed_count`, breaking as soon as
`processed_count >= max_videos_to_process` at the top of an iteration;
each non-skipped iteration appends exactly one entry, and only a successful
iteration increments the counter. -/
def processLoop (oKey : Bool) : List (Podcast × ItemBehavior) → Nat → List DigestEntry
  | [], _ => []
  | (p, b) :: rest, processed_count =>
    if max_videos_to_process ≤ processed_count then []
    else
      let r := processItem oKey p b
      r.entry :: processLoop oKey rest (if r.success then processed_count + 1 else processed_count)

/-- The sub-sequence of candidate/behavior pairs the loop actually attempts
(reaches the `try` block for), under the same counter dynamics as
`processLoop`. -/
def attemptedItems (oKey : Bool) : List (Podcast × ItemBehavior) → Nat → List (Podcast × ItemBehavior)
  | [], _ => []
  | (p, b) :: rest, processed_count =>
    if max_videos_to_process ≤ processed_count then []
    else
      (p, b) :: attemptedItems oKey rest
        (if (processItem oKey p b).success then processed_count + 1 else processed_count)

/-! ### daily_digest request boundary (lines 213-300) -/

/-- Python `" OR ".join(...)`: the separator between consecutive elements,
nothing around. -/
def pyJoin (sep : String) : List String → String
  | [] => ""
  | [x] => x
  | x :: y :: rest => x ++ sep ++ pyJoin sep (y :: rest)

/-- The query builder (line 237):
`f"{category} podcast OR interview OR news " + " OR ".join([f'"{company}"' ...])`. -/
def buildSearchKeywords (category : String) (companies_list : List String) : String :=
  category ++ " podcast OR interview OR news " ++
    pyJoin " OR " (companies_list.map fun company => "\"" ++ company ++ "\"")

/-- Outcome of resolving the `company`/`companies` keys (lines 223-234):
either the 400 error message or the resolved non-empty entity list, plus
whether the `companies` key was consulted (line 227 reached). -/
structure ResolveOut where
  result : Except String (List String)
  consultedCompanies : Bool
  deriving Repr

/-- Lines 223-234 of `daily_digest`: take `company` (default
`TOP_PLAYERS`); if that is falsy, take `companies` (default `TOP_PLAYERS`);
wrap a string into a one-element list; then 400 unless the value is a
non-empty list. -/
def resolveCompanies (data : RequestBody) : ResolveOut :=
  let c0 := data.company.getD (PyVal.plist TOP_PLAYERS)
  let consulted := !c0.truthy
  let c1 := if c0.truthy then c0 else data.companies.getD (PyVal.plist TOP_PLAYERS)
  let c2 := match c1 with
    | .pstr s => PyVal.plist [s]
    | v => v
  match c2 with
  | .plist l =>
    if l = [] then ⟨.error "company/companies must be a non-empty list or string", consulted⟩
    else ⟨.ok l, consulted⟩
  | _ => ⟨.error "company/companies must be a non-empty list or string", consulted⟩

/-- An HTTP response of the handler: a JSON array with a status, or a JSON
error object with a status. -/
inductive HttpResponse where
  | arr (entries : List DigestEntry) (status : Nat)
  | errObj (msg : String) (status : Nat)
  deriving DecidableEq, Repr

/-- Status code of a response. -/
def HttpResponse.status : HttpResponse → Nat
  | .arr _ s => s
  | .errObj _ s => s

/-- Whether the response body is a JSON array. -/
def HttpResponse.isArr : HttpResponse → Bool
  | .arr _ _ => true
  | .errObj _ _ => false

/-- The environment of one request: the two credentials, the search
collaborator, the per-item collaborator outcomes indexed by the item's
position in the candidate list, and whether an unexpected exception escapes
the handler body (caught by the outer `except` at lines 298-300). -/
structure Env where
  ytKey : Bool
  oKey : Bool
  search : String → Nat → Except String (List RawItem)
  behaviors : Nat → ItemBehavior
  crash : Bool

/-- The `daily_digest` handler (lines 215-300).  `req = none` models
`request.get_json()` yielding no parsed body.  The outer `try`/`except`
converts any unexpected escaping exception into `jsonify([])` with
status 200. -/
def daily_digest (env : Env) (req : Option RequestBody) : HttpResponse :=
  if env.crash then .arr [] 200
  else
    match req with
    | none => .errObj "Missing JSON body" 400
    | some data =>
      if data.truthy = false then .errObj "Missing JSON body" 400
      else
        let category := data.category.getD "shipping industry"
        match (resolveCompanies data).result with
        | .error msg => .errObj msg 400
        | .ok companies_list =>
          let search_keywords := buildSearchKeywords category companies_list
          let podcasts := get_last_month_youtube_podcasts env.ytKey env.search search_keywords 5
          if podcasts = [] then .arr [] 200
          else
            let paired := podcasts.enum.map fun ip => (ip.2, env.behaviors ip.1)
            .arr (processLoop env.oKey paired 0) 200

/-! ### Spec-side definition for the query-builder refinement claim -/

/-- Modelled from the spec's words (section 4.1): the query string of the
form `<topic> podcast OR interview OR news "<entity1>" OR "<entity2>" ...`,
with each entity double-quoted and joined with a literal ` OR `.  This is
the spec's rendering, to be compared with `buildSearchKeywords` from the
source. -/
def specQueryForm (topic : String) (entities : List String) : String :=
  topic ++ " podcast OR interview OR news " ++
    String.intercalate " OR " (entities.map fun e => "\"" ++ e ++ "\"")

/-! ### Helper lemmas -/

theorem intercalate_go_spec (s : String) (l : List String) :
    ∀ acc, String.intercalate.go acc s l = acc ++ (match l with
      | [] => ""
      | y :: ys => s ++ pyJoin s (y :: ys)) := by
  induction l with
  | nil => intro acc; simp [String.intercalate.go]
  | cons y ys ih =>
    intro acc
    cases ys with
    | nil => simp [String.intercalate.go, pyJoin, String.append_assoc]
    | cons z zs =>
      rw [String.intercalate.go, ih]
      simp [pyJoin, String.append_assoc]

theorem pyJoin_eq_intercalate (sep : String) (l : List String) :
    pyJoin sep l = String.intercalate sep l := by
  cases l with
  | nil => rfl
  | cons x xs =>
    rw [String.intercalate, intercalate_go_spec]
    cases xs with
    | nil => simp [pyJoin]
    | cons y ys => simp [pyJoin, String.append_assoc]

theorem pyStrip_length_le (s : String) : (pyStrip s).length ≤ s.length := by
  show ((s.data.dropWhile Char.isWhitespace).reverse.dropWhile
      Char.isWhitespace).reverse.length ≤ s.data.length
  rw [List.length_reverse]
  calc ((s.data.dropWhile Char.isWhitespace).reverse.dropWhile Char.isWhitespace).length
      ≤ (s.data.dropWhile Char.isWhitespace).reverse.length :=
        (List.dropWhile_sublist _).length_le
    _ = (s.data.dropWhile Char.isWhitespace).length := List.length_reverse _
    _ ≤ s.data.length := (List.dropWhile_sublist _).length_le

theorem fileTooLargeMsg_ne_small (size : Nat) :
    fileTooLargeMsg size ≠ "Audio file too small - likely corrupted" := by
  intro h
  have h2 := congrArg String.data h
  rw [fileTooLargeMsg, String.data_append, String.data_append] at h2
  simp at h2

/-! ### Claims -/

/-- C7: the size-gate before transcription rejects every payload below the
1 KB minimum (1000 bytes in the source) with the corrupted-payload error,
rejects every payload above 25 MB with the distinct too-large error, and
lets every payload within the bounds through to the transcription call
(whose normalized outcome is then returned). -/
theorem claim_C7_size_gate :
    (∀ (path : String) (size : Nat) (w : Except String TranscriptShape),
        size < 1000 →
          transcribe_audio true path (some size) w =
            (.error "Audio file too small - likely corrupted", true)) ∧
    (∀ (path : String) (size : Nat) (w : Except String TranscriptShape),
        25 * 1024 * 1024 < size →
          transcribe_audio true path (some size) w = (.error (fileTooLargeMsg size), true) ∧
            fileTooLargeMsg size ≠ "Audio file too small - likely corrupted") ∧
    (∀ (path : String) (size : Nat) (w : Except String TranscriptShape),
        1000 ≤ size → size ≤ 25 * 1024 * 1024 →
          (transcribe_audio true path (some size) w).1 = Except.map normalizeTranscript w) := by
  refine ⟨?_, ?_, ?_⟩
  · intro path size w h
    simp [transcribe_audio, h]
  · intro path size w h
    have h1 : ¬ size < 1000 := by omega
    exact ⟨by simp [transcribe_audio, h1, h], fileTooLargeMsg_ne_small size⟩
  · intro path size w h1 h2
    have h1' : ¬ size < 1000 := by omega
    have h2' : ¬ 25 * 1024 * 1024 < size := by omega
    cases w <;> simp [transcribe_audio, h1', h2', Except.map]

/-- Witness for C7 at concrete payload sizes: 500 bytes is rejected as
likely corrupted, 26 MB is rejected with the (different) too-large error,
and a 5000-byte payload passes the gate. -/
theorem claim_C7_size_gate_witness :
    transcribe_audio true "audio_ab.m4a" (some 500) (.ok (.plain "x")) =
        (.error "Audio file too small - likely corrupted", true) ∧
      (transcribe_audio true "audio_ab.m4a" (some (26 * 1024 * 1024)) (.ok (.plain "x")) =
          (.error (fileTooLargeMsg (26 * 1024 * 1024)), true) ∧
        fileTooLargeMsg (26 * 1024 * 1024) ≠ "Audio file too small - likely corrupted") ∧
      (transcribe_audio true "audio_ab.m4a" (some 5000) (.ok (.plain "x"))).1 =
        Except.map normalizeTranscript (.ok (.plain "x")) :=
  ⟨claim_C7_size_gate.1 "audio_ab.m4a" 500 (.ok (.plain "x")) (by decide),
   claim_C7_size_gate.2.1 "audio_ab.m4a" (26 * 1024 * 1024) (.ok (.plain "x")) (by decide),
   claim_C7_size_gate.2.2 "audio_ab.m4a" 5000 (.ok (.plain "x")) (by decide) (by decide)⟩

/-- C8: for every topic and non-empty entity list the query builder emits
exactly the spec's string form (each entity double-quoted, joined with a
literal ` OR `), and on entities `["A","B"]` with category `"shipping"` the
result is the expected concrete string. -/
theorem claim_C8_query_builder :
    (∀ (t : String) (es : List String), es ≠ [] →
        buildSearchKeywords t es = specQueryForm t es) ∧
      buildSearchKeywords "shipping" ["A", "B"] =
        "shipping podcast OR interview OR news \"A\" OR \"B\"" := by
  constructor
  · intro t es _
    rw [buildSearchKeywords, specQueryForm, pyJoin_eq_intercalate]
  · rfl

/-- Witness for C8: the refinement applied at topic `"shipping"` and
entities `["A","B"]`. -/
theorem claim_C8_query_builder_witness :
    buildSearchKeywords "shipping" ["A", "B"] = specQueryForm "shipping" ["A", "B"] :=
  claim_C8_query_builder.1 "shipping" ["A", "B"] (by decide)

/-- C9: a transcript shorter than 50 characters never reaches the
generation collaborator, and (with the OpenAI credential configured, as the
pipeline requires to get this far) the returned summary is exactly the
fixed placeholder message. -/
theorem claim_C9_short_transcript (oKey : Bool) (text : String)
    (gen : String → Except String String) (h : text.length < 50) :
    (summarize_text oKey text gen).2 = false ∧
      (oKey = true → summarize_text oKey text gen =
        ("Transcript too short to generate meaningful summary", false)) := by
  have hcond : text = "" ∨ (pyStrip text).length < 50 := by
    by_cases he : text = ""
    · exact Or.inl he
    · exact Or.inr (lt_of_le_of_lt (pyStrip_length_le text) h)
  cases oKey with
  | false => exact ⟨rfl, by intro hk; cases hk⟩
  | true =>
    constructor
    · simp [summarize_text, hcond]
    · intro _
      simp [summarize_text, hcond]

/-- Witness for C9 at the concrete transcript `"hi"`. -/
theorem claim_C9_short_transcript_witness :
    (summarize_text true "hi" (fun _ => .ok "a long generated summary")).2 = false ∧
      (true = true → summarize_text true "hi" (fun _ => .ok "a long generated summary") =
        ("Transcript too short to generate meaningful summary", false)) :=
  claim_C9_short_transcript true "hi" (fun _ => .ok "a long generated summary") (by decide)

theorem resolveCompanies_consulted (data : RequestBody) :
    (resolveCompanies data).consultedCompanies =
      !(data.company.getD (PyVal.plist TOP_PLAYERS)).truthy := by
  simp only [resolveCompanies]
  split
  · split <;> rfl
  · rfl

/-- C10: the `companies` key is consulted exactly when `company` is present
and falsy; a body carrying only `companies` has it ignored in favour of the
preset `TOP_PLAYERS`; and a body whose `company` is the empty string or the
empty list (with `companies` absent) resolves to the preset list and gets
HTTP 200, not 400. -/
theorem claim_C10_companies_key :
    (∀ (cat : Option String) (v : PyVal) (ok : Bool),
        (resolveCompanies ⟨cat, none, some v, ok⟩).result = .ok TOP_PLAYERS ∧
          (resolveCompanies ⟨cat, none, some v, ok⟩).consultedCompanies = false) ∧
    (∀ data : RequestBody,
        (resolveCompanies data).consultedCompanies = true ↔
          ∃ v, data.company = some v ∧ v.truthy = false) ∧
    (∀ (env : Env) (cat : Option String) (ok : Bool)
        (v : PyVal), v = .pstr "" ∨ v = .plist [] →
        (resolveCompanies ⟨cat, some v, none, ok⟩).result = .ok TOP_PLAYERS ∧
          (daily_digest env (some ⟨cat, some v, none, ok⟩)).status = 200) := by
  refine ⟨?_, ?_, ?_⟩
  · intro cat v ok
    exact ⟨rfl, rfl⟩
  · intro data
    rw [resolveCompanies_consulted]
    cases hc : data.company with
    | none => simp [PyVal.truthy, TOP_PLAYERS]
    | some v => simp
  · intro env cat ok v hv
    have hres : (resolveCompanies ⟨cat, some v, none, ok⟩).result = .ok TOP_PLAYERS := by
      rcases hv with rfl | rfl <;> rfl
    refine ⟨hres, ?_⟩
    by_cases hcr : env.crash
    · simp [daily_digest, hcr, HttpResponse.status]
    · simp only [daily_digest, hcr, if_false]
      have htr : (RequestBody.truthy ⟨cat, some v, none, ok⟩) = true := by
        simp [RequestBody.truthy]
      rw [htr]
      simp only [Bool.true_eq_false, if_false, hres]
      split
      all_goals first
      | rfl
      | (split <;> rfl)

/-- A download-failure behavior used by the bare environment below. -/
def bareBehavior : ItemBehavior :=
  { download := .error "x", fileSize := none,
    whisper := .error "x", gen := fun _ => .error "x" }

/-- An environment with no credentials and an empty search result, used by
the C10 witness. -/
def bareEnv : Env :=
  { ytKey := false, oKey := false, search := fun _ _ => .ok [],
    behaviors := fun _ => bareBehavior, crash := false }

/-- Witness for C10: a body whose `company` is the empty string (and with
no `companies` key) resolves to the preset list and is answered with
HTTP 200. -/
theorem claim_C10_companies_key_witness :
    (resolveCompanies ⟨none, some (.pstr ""), none, false⟩).result = .ok TOP_PLAYERS ∧
      (daily_digest bareEnv (some ⟨none, some (.pstr ""), none, false⟩)).status = 200 :=
  claim_C10_companies_key.2.2 bareEnv none false (.pstr "") (Or.inl rfl)

/-! ### Loop lemmas -/

theorem processLoop_stop (oKey : Bool) (l : List (Podcast × ItemBehavior)) (cnt : Nat)
    (h : max_videos_to_process ≤ cnt) : processLoop oKey l cnt = [] := by
  cases l with
  | nil => rfl
  | cons pb rest =>
    obtain ⟨p, b⟩ := pb
    simp [processLoop, h]

theorem processLoop_eq_map_attempted (oKey : Bool) (l : List (Podcast × ItemBehavior)) :
    ∀ cnt, processLoop oKey l cnt =
      (attemptedItems oKey l cnt).map fun pb => (processItem oKey pb.1 pb.2).entry := by
  induction l with
  | nil => intro cnt; rfl
  | cons pb rest ih =>
    intro cnt
    obtain ⟨p, b⟩ := pb
    by_cases h : max_videos_to_process ≤ cnt
    · simp [processLoop, attemptedItems, h]
    · simp [processLoop, attemptedItems, h, ih]

theorem attemptedItems_length_le (oKey : Bool) (l : List (Podcast × ItemBehavior)) :
    ∀ cnt, (attemptedItems oKey l cnt).length ≤ l.length := by
  induction l with
  | nil => intro cnt; simp [attemptedItems]
  | cons pb rest ih =>
    intro cnt
    obtain ⟨p, b⟩ := pb
    by_cases h : max_videos_to_process ≤ cnt
    · simp [attemptedItems, h]
    · simp only [attemptedItems, h, if_false, List.length_cons]
      exact Nat.succ_le_succ (ih _)

theorem processItem_error_isNone (oKey : Bool) (p : Podcast) (b : ItemBehavior) :
    (processItem oKey p b).entry.error.isNone = (processItem oKey p b).success := by
  unfold processItem
  cases b.download with
  | error e => rfl
  | ok path =>
    rcases h : transcribe_audio oKey path b.fileSize b.whisper with ⟨res, present⟩
    cases res <;> simp [h, failEntry]

theorem processLoop_countP_success_le (oKey : Bool) (l : List (Podcast × ItemBehavior)) :
    ∀ cnt, (processLoop oKey l cnt).countP (fun e => e.error.isNone) ≤
      max_videos_to_process - cnt := by
  induction l with
  | nil => intro cnt; simp [processLoop]
  | cons pb rest ih =>
    intro cnt
    obtain ⟨p, b⟩ := pb
    by_cases h : max_videos_to_process ≤ cnt
    · simp [processLoop, h]
    · simp only [processLoop, h, if_false, List.countP_cons]
      cases hs : (processItem oKey p b).success with
      | false =>
        have he : (processItem oKey p b).entry.error.isNone = false := by
          rw [processItem_error_isNone, hs]
        simp only [hs, if_false, he]
        simpa using ih cnt
      | true =>
        have he : (processItem oKey p b).entry.error.isNone = true := by
          rw [processItem_error_isNone, hs]
        simp only [hs, if_true, he]
        have := ih (cnt + 1)
        omega

theorem processLoop_allFail_length (oKey : Bool) (l : List (Podcast × ItemBehavior))
    (hfail : ∀ pb ∈ l, (processItem oKey pb.1 pb.2).success = false) :
    ∀ cnt, cnt < max_videos_to_process → (processLoop oKey l cnt).length = l.length := by
  induction l with
  | nil => intro cnt _; rfl
  | cons pb rest ih =>
    intro cnt hlt
    obtain ⟨p, b⟩ := pb
    have h : ¬ max_videos_to_process ≤ cnt := by omega
    have hs : (processItem oKey p b).success = false := hfail (p, b) (by simp)
    simp only [processLoop, h, if_false, hs, List.length_cons]
    rw [if_neg (by simp : ¬ (false = true))]
    rw [ih (fun pb hpb => hfail pb (by simp [hpb])) cnt hlt]

/-! ### Fixed sample inputs used by witnesses and counterexamples -/

/-- A transcript comfortably over the 50-character minimum. -/
def sampleTranscript : String :=
  "The shipping industry discussed charter rates and port congestion this week."

/-- A candidate item with all fields populated. -/
def samplePodcast : Podcast :=
  { title := "Freight Weekly", channel := "Ocean Desk",
    published_at := "2026-09-20T08:00:00Z",
    video_url := "https://www.youtube.com/watch?v=abcdefghijk" }

/-- Collaborator outcomes under which an item fully succeeds. -/
def sampleGoodBehavior : ItemBehavior :=
  { download := .ok "audio_11111111.m4a", fileSize := some 5000,
    whisper := .ok (.plain sampleTranscript),
    gen := fun _ => .ok "Charter rates rose; congestion persists at hub ports." }

/-- Collaborator outcomes under which an item fails at the download step. -/
def sampleBadBehavior : ItemBehavior :=
  { download := .error "Downloaded file not found", fileSize := none,
    whisper := .error "unreached", gen := fun _ => .error "unreached" }

/-- Collaborator outcomes under which download and transcription succeed but
the generation collaborator raises. -/
def sampleGenFailBehavior : ItemBehavior :=
  { download := .ok "audio_22222222.m4a", fileSize := some 5000,
    whisper := .ok (.plain sampleTranscript), gen := fun _ => .error "boom" }

/-! ### Claims about the per-item loop -/

/-- C1: the counter is incremented only on success and iteration halts once
it reaches the cap of 3: when the first three attempted items succeed,
exactly their three entries are returned no matter how many candidates
follow; and when every attempted item fails, the loop runs through the
entire candidate sequence. -/
theorem claim_C1_cap_counts_successes :
    (∀ (oKey : Bool) (p0 p1 p2 : Podcast) (b0 b1 b2 : ItemBehavior)
        (rest : List (Podcast × ItemBehavior)),
        (processItem oKey p0 b0).success = true →
        (processItem oKey p1 b1).success = true →
        (processItem oKey p2 b2).success = true →
        processLoop oKey ((p0, b0) :: (p1, b1) :: (p2, b2) :: rest) 0 =
          [(processItem oKey p0 b0).entry, (processItem oKey p1 b1).entry,
            (processItem oKey p2 b2).entry]) ∧
    (∀ (oKey : Bool) (l : List (Podcast × ItemBehavior)),
        (∀ pb ∈ l, (processItem oKey pb.1 pb.2).success = false) →
        (processLoop oKey l 0).length = l.length) := by
  constructor
  · intro oKey p0 p1 p2 b0 b1 b2 rest h0 h1 h2
    have hstop := processLoop_stop oKey rest 3 (le_refl _)
    simp [processLoop, max_videos_to_process, h0, h1, h2, hstop]
  · intro oKey l hfail
    exact processLoop_allFail_length oKey l hfail 0 (by decide)

/-- Witness for C1: five candidates whose first three succeed give exactly
three entries, and two candidates that both fail give two entries (both
attempted, the cap never reached). -/
theorem claim_C1_cap_counts_successes_witness :
    processLoop true ((samplePodcast, sampleGoodBehavior) :: (samplePodcast, sampleGoodBehavior)
        :: (samplePodcast, sampleGoodBehavior) ::
        [(samplePodcast, sampleGoodBehavior), (samplePodcast, sampleGoodBehavior)]) 0 =
      [(processItem true samplePodcast sampleGoodBehavior).entry,
        (processItem true samplePodcast sampleGoodBehavior).entry,
        (processItem true samplePodcast sampleGoodBehavior).entry] ∧
      (processLoop true [(samplePodcast, sampleBadBehavior),
        (samplePodcast, sampleBadBehavior)] 0).length =
        ([(samplePodcast, sampleBadBehavior), (samplePodcast, sampleBadBehavior)] :
          List (Podcast × ItemBehavior)).length :=
  ⟨claim_C1_cap_counts_successes.1 true samplePodcast samplePodcast samplePodcast
      sampleGoodBehavior sampleGoodBehavior sampleGoodBehavior _ (by decide) (by decide) (by decide),
    claim_C1_cap_counts_successes.2 true _ (by decide)⟩

/-- C2 counterexample: with four retrieved candidates that all fail, the
loop attempts all four of them, so the number of items actually attempted
exceeds the max-process cap of 3, contradicting the claimed bound. -/
theorem cex_C2_attempts_exceed_cap :
    (attemptedItems true (List.replicate 4 (samplePodcast, sampleBadBehavior)) 0).length = 4 ∧
      ¬ (attemptedItems true (List.replicate 4 (samplePodcast, sampleBadBehavior)) 0).length ≤
        max_videos_to_process := by decide

/-- C2 (amended): the number of `DigestEntry` in the response equals the
number of items actually attempted, the number attempted is at most the
number of candidates retrieved, and the number of successfully processed
items (entries without an `error` field) is at most the cap of 3; attempts
themselves may exceed the cap when failures occur. -/
theorem claim_C2_amended_bounds (oKey : Bool) (l : List (Podcast × ItemBehavior)) :
    (processLoop oKey l 0).length = (attemptedItems oKey l 0).length ∧
      (attemptedItems oKey l 0).length ≤ l.length ∧
      (processLoop oKey l 0).countP (fun e => e.error.isNone) ≤ max_videos_to_process := by
  refine ⟨?_, attemptedItems_length_le oKey l 0, ?_⟩
  · rw [processLoop_eq_map_attempted, List.length_map]
  · simpa using processLoop_countP_success_le oKey l 0

/-- C5: every attempted candidate yields exactly one `DigestEntry` — the
response list is precisely the per-item entries of the attempted items, in
attempt order (hence never zero and never more than one per attempt). -/
theorem claim_C5_one_entry_per_attempt (oKey : Bool)
    (l : List (Podcast × ItemBehavior)) (cnt : Nat) :
    processLoop oKey l cnt =
      (attemptedItems oKey l cnt).map (fun pb => (processItem oKey pb.1 pb.2).entry) ∧
      (processLoop oKey l cnt).length = (attemptedItems oKey l cnt).length := by
  refine ⟨processLoop_eq_map_attempted oKey l cnt, ?_⟩
  rw [processLoop_eq_map_attempted, List.length_map]

/-! ### Error-field and cleanup claims -/

theorem append_ne_empty_left (x y : String) (hx : x.data ≠ []) : x ++ y ≠ "" := by
  intro h
  have h2 := congrArg String.data h
  rw [String.data_append] at h2
  exact hx (List.append_eq_nil.mp h2).1

theorem summarize_text_ne_empty (oKey : Bool) (text : String)
    (gen : String → Except String String) : (summarize_text oKey text gen).1 ≠ "" := by
  unfold summarize_text
  by_cases hk : oKey = false
  · rw [if_pos hk]; decide
  · rw [if_neg hk]
    by_cases hc : text = "" ∨ (pyStrip text).length < 50
    · rw [if_pos hc]; decide
    · rw [if_neg hc]
      cases hg : gen (truncateForPrompt text) with
      | error e => exact append_ne_empty_left "Summary generation failed: " e (by decide)
      | ok s =>
        dsimp only
        by_cases hps : pyStrip s = ""
        · rw [if_pos hps]; decide
        · rw [if_neg hps]
          intro hs
          apply hps
          rw [show s = "" from hs]
          decide

/-- The stages of one item's processing that can raise an exception:
`download_audio` and `transcribe_audio` (`summarize_text` never raises —
it converts every failure into a returned string). -/
def itemRaises (oKey : Bool) (b : ItemBehavior) : Bool :=
  match b.download with
  | .error _ => true
  | .ok audio_path => isErr (transcribe_audio oKey audio_path b.fileSize b.whisper).1

/-- C3 counterexample: on an item whose download and transcription succeed
but whose generation collaborator raises, the emitted `DigestEntry` has
**no** `error` field: the failure message lands in `summary` and the item
even counts as a success for the cap, refuting the claim that a
summarization failure yields an entry carrying `error`. -/
theorem cex_C3_generation_failure_without_error_field :
    (processItem true samplePodcast sampleGenFailBehavior).entry.error = none ∧
      (processItem true samplePodcast sampleGenFailBehavior).entry.summary =
        "Summary generation failed: boom" ∧
      (processItem true samplePodcast sampleGenFailBehavior).success = true := by
  decide

/-- C3 (amended): a `DigestEntry` carries an `error` field iff the download
or transcription stage raised; a generation-collaborator failure instead
yields an error-free entry whose `summary` is the
`Summary generation failed:` message; and `summary` is always a non-empty
string (a real summary or a human-readable failure message). -/
theorem claim_C3_amended_error_field :
    (∀ (oKey : Bool) (p : Podcast) (b : ItemBehavior),
        (processItem oKey p b).entry.error.isSome = itemRaises oKey b ∧
          (processItem oKey p b).entry.summary ≠ "") ∧
    (∀ (oKey : Bool) (p : Podcast) (b : ItemBehavior) (path t : String)
        (pres : Bool) (e : String),
        b.download = .ok path →
        transcribe_audio oKey path b.fileSize b.whisper = (.ok t, pres) →
        50 ≤ (pyStrip t).length →
        b.gen (truncateForPrompt t) = .error e →
        (processItem oKey p b).entry.error = none ∧
          (processItem oKey p b).entry.summary = "Summary generation failed: " ++ e ∧
          (processItem oKey p b).success = true) := by
  constructor
  · intro oKey p b
    unfold processItem itemRaises
    cases hdl : b.download with
    | error e =>
      exact ⟨rfl, append_ne_empty_left "Processing failed: " e (by decide)⟩
    | ok path =>
      dsimp only
      rcases htr : transcribe_audio oKey path b.fileSize b.whisper with ⟨res, pres⟩
      cases res with
      | error e =>
        exact ⟨rfl, append_ne_empty_left "Processing failed: " e (by decide)⟩
      | ok t =>
        exact ⟨rfl, summarize_text_ne_empty oKey t b.gen⟩
  · intro oKey p b path t pres e hdl htr hlen hgen
    have hko : oKey = true := by
      cases oKey
      · simp [transcribe_audio] at htr
      · rfl
    subst hko
    have hcond : ¬ (t = "" ∨ (pyStrip t).length < 50) := by
      rintro (rfl | hc)
      · revert hlen; decide
      · omega
    unfold processItem
    simp only [hdl, htr]
    simp [summarize_text, hcond, hgen]

/-- Witness for the amended C3, applied at the concrete
generation-failure item. -/
theorem claim_C3_amended_error_field_witness :
    (processItem true samplePodcast sampleGenFailBehavior).entry.error = none ∧
      (processItem true samplePodcast sampleGenFailBehavior).entry.summary =
        "Summary generation failed: " ++ "boom" ∧
      (processItem true samplePodcast sampleGenFailBehavior).success = true :=
  claim_C3_amended_error_field.2 true samplePodcast sampleGenFailBehavior
    "audio_22222222.m4a" sampleTranscript false "boom" rfl rfl (by decide) rfl

/-- C4 counterexample: a 500-byte payload fails the size-gate, which sits
before the `try`/`finally` in `transcribe_audio`, so the scratch audio file
is **still present** after the item fails — refuting the claim that the
payload is always deleted regardless of how transcription failed. -/
theorem cex_C4_size_gate_leaves_file :
    transcribe_audio true "audio_33333333.m4a" (some 500) (.ok (.plain "x")) =
      (.error "Audio file too small - likely corrupted", true) := rfl

/-- C4 (amended): the scratch audio file is deleted whenever the
precondition checks pass (credential present, file present, size within
the 1 KB - 25 MB bounds) — i.e. whenever the transcription call itself is
reached — whether that call succeeds or raises; when a precondition or
size-gate check fails, the file survives. -/
theorem claim_C4_amended_cleanup (path : String) (size : Nat)
    (w : Except String TranscriptShape)
    (h1 : 1000 ≤ size) (h2 : size ≤ 25 * 1024 * 1024) :
    (transcribe_audio true path (some size) w).2 = false := by
  have h1' : ¬ size < 1000 := by omega
  have h2' : ¬ 25 * 1024 * 1024 < size := by omega
  cases w <;> simp [transcribe_audio, h1', h2']

/-- Witness for the amended C4 at a 5000-byte payload whose transcription
call raises: the file is nevertheless gone afterwards. -/
theorem claim_C4_amended_cleanup_witness :
    (transcribe_audio true "audio_33333333.m4a" (some 5000) (.error "whisper down")).2 = false :=
  claim_C4_amended_cleanup "audio_33333333.m4a" 5000 (.error "whisper down")
    (by decide) (by decide)

/-! ### Request-boundary claim -/

/-- A benign request environment: both credentials set, a search
collaborator returning no items, failing item behaviors, no crash. -/
def sampleEnv : Env :=
  { ytKey := true, oKey := true, search := fun _ _ => .ok [],
    behaviors := fun _ => sampleBadBehavior, crash := false }

/-- The empty JSON object as a parsed request body: every key absent. -/
def emptyBody : RequestBody :=
  { category := none, company := none, companies := none, otherKeys := false }

/-- C6 counterexample: the empty JSON object is a present request body, and
its `company`/`companies` keys resolve to the non-empty preset list, yet
the handler returns HTTP 400 (the `if not data` check treats any falsy
parsed body as missing) — refuting the claim that 400 occurs only for an
absent body or a bad `company`/`companies` value. -/
theorem cex_C6_empty_object_gets_400 :
    daily_digest sampleEnv (some emptyBody) = .errObj "Missing JSON body" 400 ∧
      (resolveCompanies emptyBody).result = .ok TOP_PLAYERS :=
  ⟨rfl, rfl⟩

/-- C6 (amended): the boundary never signals pipeline-level failure: a
missing search credential or a search-collaborator error yields an empty
candidate list; an unexpected error escaping the handler yields HTTP 200
with an empty array; and every response is either a 200 JSON array or an
HTTP 400, the latter exactly when (no crash intervened and) the body is
absent **or parses to a falsy value such as the empty JSON object**, or
`company`/`companies` resolves to something that is not a non-empty list. -/
theorem claim_C6_amended_boundary :
    (∀ (search : String → Nat → Except String (List RawItem)) (kw : String) (n : Nat),
        get_last_month_youtube_podcasts false search kw n = []) ∧
    (∀ (search : String → Nat → Except String (List RawItem)) (kw : String) (n : Nat)
        (e : String), search kw n = .error e →
        get_last_month_youtube_podcasts true search kw n = []) ∧
    (∀ (env : Env) (req : Option RequestBody), env.crash = true →
        daily_digest env req = .arr [] 200) ∧
    (∀ (env : Env) (req : Option RequestBody),
        ((daily_digest env req).isArr = true ∧ (daily_digest env req).status = 200) ∨
          ((daily_digest env req).status = 400 ∧ env.crash = false ∧
            (req = none ∨ ∃ body, req = some body ∧
              (body.truthy = false ∨ isErr (resolveCompanies body).result = true)))) := by
  refine ⟨?_, ?_, ?_, ?_⟩
  · intro search kw n
    rfl
  · intro search kw n e h
    simp [get_last_month_youtube_podcasts, h]
  · intro env req h
    simp [daily_digest, h]
  · intro env req
    by_cases hcr : env.crash
    · left
      simp [daily_digest, hcr, HttpResponse.isArr, HttpResponse.status]
    · have hcf : env.crash = false := by simpa using hcr
      cases req with
      | none =>
        right
        exact ⟨by simp [daily_digest, hcr, HttpResponse.status], hcf, Or.inl rfl⟩
      | some data =>
        by_cases ht : data.truthy = false
        · right
          refine ⟨?_, hcf, Or.inr ⟨data, rfl, Or.inl ht⟩⟩
          simp [daily_digest, hcr, ht, HttpResponse.status]
        · cases hres : (resolveCompanies data).result with
          | error msg =>
            right
            refine ⟨?_, hcf, Or.inr ⟨data, rfl, Or.inr ?_⟩⟩
            · simp [daily_digest, hcr, ht, hres, HttpResponse.status]
            · simp [hres, isErr]
          | ok cl =>
            left
            simp only [daily_digest, hcr, Bool.false_eq_true, if_false, ht, hres]
            split
            · rename_i h
              exact absurd h (by decide)
            · split <;> simp [HttpResponse.isArr, HttpResponse.status]

/-- Witness for the amended C6: a search-collaborator error yields an empty
candidate list, and a crashing request yields the empty 200 array. -/
theorem claim_C6_amended_boundary_witness :
    get_last_month_youtube_podcasts true (fun _ _ => .error "quota exceeded")
        "shipping industry podcast" 5 = [] ∧
      daily_digest { sampleEnv with crash := true } (some emptyBody) = .arr [] 200 :=
  ⟨claim_C6_amended_boundary.2.1 (fun _ _ => .error "quota exceeded")
      "shipping industry podcast" 5 "quota exceeded" rfl,
    claim_C6_amended_boundary.2.2.1 { sampleEnv with crash := true } (some emptyBody) rfl⟩

end MarineAI
